import Mathlib

/-!
Shallow embedding of the credential issuance and revocation lifecycle of
`workflow-application-token-action`: the GitHub Application identity
(`src/github-application.ts`), the main action phase (`src/actions/main.ts`)
and the post (revocation) phase (`src/actions/post.ts`).

Network interaction is embedded by passing the HTTP response a request would
have received as an explicit argument; the octokit client raises for
statuses >= 400, which is modelled by the `httpError` constructor, while
`ok` carries a response the calling code inspects. Functions that issue
requests also return how many requests they issued (or the request payload
itself), so that claims about "no network call" are statements over the
embedding.
-/

/-- A JavaScript value of a field that may be undefined (declared but never
assigned), null, or an actual value. `github-application.ts` declares
`private _client: any;` with no initializer, so the field holds `undefined`
until `connect` assigns it. -/
inductive JSField (α : Type) where
  | undef
  | nullv
  | val (a : α)
deriving DecidableEq, Repr

/-- Result of an HTTP request as the octokit client delivers it: `ok` is a
response returned to the caller, `httpError` is the error the client raises
(it does so for every status >= 400 and for transport failures). -/
inductive HttpResult (α : Type) where
  | ok (status : Nat) (data : α)
  | httpError (status : Nat) (message : String)
deriving DecidableEq, Repr

/-- A permission mapping: a JavaScript object of permission name to level,
embedded as an insertion-ordered association list. -/
abbrev Permissions := List (String × String)

/-- Does `l` start with `sub`? (character-list prefix test). -/
def leadMatch : List Char → List Char → Bool
  | [], _ => true
  | _ :: _, [] => false
  | a :: as, b :: bs => a == b && leadMatch as bs

/-- Does `l` contain `sub` as a contiguous run? -/
def hasPart (sub : List Char) : List Char → Bool
  | [] => sub.isEmpty
  | c :: rest => leadMatch sub (c :: rest) || hasPart sub rest

/-- String containment: `strContains s sub` holds when `sub` occurs inside `s`. -/
def strContains (s sub : String) : Bool :=
  hasPart sub.toList s.toList

/-- Splits a character list at every occurrence of the separator, the piece
accumulated so far carried in reverse. -/
def splitCharsAux (sep : Char) : List Char → List Char → List (List Char)
  | [], acc => [acc.reverse]
  | c :: rest, acc =>
      if c == sep then acc.reverse :: splitCharsAux sep rest []
      else splitCharsAux sep rest (c :: acc)

/-- JavaScript `s.split(sep)` for a one-character separator: the empty string
yields `[""]`, adjacent separators yield empty pieces. -/
def jsSplit (s : String) (sep : Char) : List String :=
  (splitCharsAux sep s.toList []).map String.mk

/-- Drops whitespace from both ends of a character list. -/
def trimChars (l : List Char) : List Char :=
  ((l.dropWhile Char.isWhitespace).reverse.dropWhile Char.isWhitespace).reverse

/-- JavaScript `s.trim()`: whitespace stripped from both ends. -/
def jsTrim (s : String) : String :=
  String.mk (trimChars s.toList)

/-- JavaScript `a || b` on strings where `a` may be undefined: an absent or
empty string is falsy and falls through to `b`. -/
def jsOr (a : Option String) (b : String) : String :=
  match a with
  | none => b
  | some s => if s == "" then b else s

/-- `getApiBaseUrl` of `github-application.ts`:
`url || process.env['GITHUB_API_URL'] || 'https://api.github.com'`. -/
def getApiBaseUrl (url : Option String) (envGithubApiUrl : Option String) : String :=
  jsOr url (jsOr envGithubApiUrl "https://api.github.com")

/-- The observable configuration of the octokit client `getOctokit` builds:
the token it authenticates with, the resolved base URL, and the fixed
per-request timeout. -/
structure OctokitClient where
  authToken : String
  baseUrl : String
  requestTimeoutMs : Nat
deriving DecidableEq, Repr

/-- `getOctokit(token, baseApiUrl?)` of `github-application.ts`: resolves the
base URL through `getApiBaseUrl` and fixes the request timeout at 5000 ms.
`envGithubApiUrl` stands for `process.env['GITHUB_API_URL']`. -/
def getOctokit (token : String) (baseApiUrl : Option String)
    (envGithubApiUrl : Option String) : OctokitClient :=
  { authToken := token
  , baseUrl := getApiBaseUrl baseApiUrl envGithubApiUrl
  , requestTimeoutMs := 5000 }

/-- The claims of the signed assertion `connect` builds. -/
structure JwtClaims where
  iat : Nat
  exp : Nat
  iss : String
deriving DecidableEq, Repr

/-- The payload `GitHubApplication.connect(validSeconds = 60)` signs:
`iat` is `Math.floor(Date.now() / 1000)` (`nowMs` stands for `Date.now()`),
`exp` is `iat + validSeconds`, `iss` is the application id. An unsupplied
`validSeconds` takes the default value 60. -/
def connectClaims (appId : String) (nowMs : Nat) (validSeconds : Option Nat) : JwtClaims :=
  let expireInSeconds := validSeconds.getD 60
  let secondsNow := nowMs / 1000
  { iat := secondsNow, exp := secondsNow + expireInSeconds, iss := appId }

/-- `ApplicationConfig` of `github-application.ts`. -/
structure ApplicationConfig where
  applicationId : String
  privateKey : String
  baseApiUrl : Option String
  timeout : Option Nat
deriving DecidableEq, Repr

/-- The signed-assertion claims produced by `createApplication(config)`,
which constructs the application and calls `app.connect(config.timeout)`:
the config's `timeout` value is passed as `connect`'s `validSeconds`. -/
def createApplicationClaims (config : ApplicationConfig) (nowMs : Nat) : JwtClaims :=
  connectClaims config.applicationId nowMs config.timeout

/-- The `client` accessor of `GitHubApplication`: it returns the `_client`
field, raising only when the field is strictly equal to `null`
(`if (client === null) throw ...`). -/
def clientAccessor (client : JSField OctokitClient) : Except String (JSField OctokitClient) :=
  match client with
  | JSField.nullv =>
      Except.error
        "Application has not been initialized correctly, call connect() to connect to GitHub first."
  | c => Except.ok c

/-- The `_client` field of a freshly constructed `GitHubApplication` on which
`connect()` has not been called: declared without an initializer, it holds
`undefined`. -/
def freshClientField : JSField OctokitClient := JSField.undef

/-- The body of the `POST /app/installations/:id/access_tokens` request as the
octokit client serializes it: `permissions = some m` means the JSON body has a
`permissions` field holding the mapping `m`; `none` means the field is absent
from the body. -/
structure AccessTokenPayload where
  permissions : Option Permissions
deriving DecidableEq, Repr

/-- The payload `getInstallationAccessToken` builds: the payload object is
created with a `permissions` key holding an empty object, and the key is
reassigned to the caller's mapping when that mapping is supplied and
non-empty. Every key the payload object holds (headers aside) is serialized
into the request body. -/
def buildAccessTokenPayload (permissions : Option Permissions) : AccessTokenPayload :=
  let payload : AccessTokenPayload := { permissions := some [] }
  match permissions with
  | some ps => if ps.length > 0 then { payload with permissions := some ps } else payload
  | none => payload

/-- `GitHubApplication.getInstallationAccessToken(installationId, permissions?)`:
rejects a falsy (zero) installation id before any request; otherwise issues
exactly one request whose payload `buildAccessTokenPayload` builds, treats 201
as success, and wraps every other outcome in an error. The second component is
the request that was issued, `none` when no request was made. -/
def getInstallationAccessToken (installationId : Nat) (permissions : Option Permissions)
    (resp : HttpResult String) : Except String String × Option AccessTokenPayload :=
  if installationId == 0 then
    (Except.error "GitHub Application installation id must be provided", none)
  else
    let payload := buildAccessTokenPayload permissions
    match resp with
    | HttpResult.ok status data =>
        if status == 201 then (Except.ok data, some payload)
        else
          (Except.error
            ("Failed to get access token for application installation; Unexpected status code "
              ++ toString status ++ "; " ++ data), some payload)
    | HttpResult.httpError _ msg =>
        (Except.error ("Failed to get access token for application installation; " ++ msg),
          some payload)

/-- The data of a resolved installation; only the id is consumed by the flow. -/
structure Installation where
  id : Nat
deriving DecidableEq, Repr

/-- `GitHubApplication.getRepositoryInstallation(owner, repo)`: a 200 response
yields the installation data; a raised client error (any status >= 400,
e.g. 404) is caught and rewrapped with the repository named in the message.
(A non-200 response delivered without raising is first thrown as an
unexpected-status error and then rewrapped by the same catch; the source also
appends the response data's string form there.) -/
def getRepositoryInstallation (owner repo : String) (resp : HttpResult Installation) :
    Except String Installation :=
  match resp with
  | HttpResult.ok status data =>
      if status == 200 then Except.ok data
      else
        Except.error
          ("Failed to resolve installation of application on repository " ++ owner ++ "/"
            ++ repo ++ "; Unexpected status code " ++ toString status)
  | HttpResult.httpError _ msg =>
      Except.error
        ("Failed to resolve installation of application on repository " ++ owner ++ "/"
          ++ repo ++ "; " ++ msg)

/-- `const [owner, repo] = repository.split('/')` of `main.ts`. -/
def splitRepository (repository : String) : String × String :=
  match jsSplit repository '/' with
  | owner :: repo :: _ => (owner, repo)
  | [owner] => (owner, "")
  | [] => ("", "")

/-- `parsePermissions`: one comma-separated entry `p`, split on `:` into at
most two pieces (`p.split(":", 2)` keeps the first two pieces and drops the
rest); kept only when both pieces are non-empty, with name and level
trimmed. -/
def parsePermissionEntry (p : String) : Option (String × String) :=
  match (jsSplit p ':').take 2 with
  | [pName, pLevel] =>
      if pName != "" && pLevel != "" then some (jsTrim pName, jsTrim pLevel) else none
  | _ => none

/-- JavaScript object assignment `m[k] = v`: updates the value in place when
the key exists, appends the key otherwise. -/
def objInsert (m : Permissions) (k v : String) : Permissions :=
  match m with
  | [] => [(k, v)]
  | (k0, v0) :: rest => if k0 == k then (k, v) :: rest else (k0, v0) :: objInsert rest k v

/-- `parsePermissions(permissionInput)` of `main.ts`: splits the input on
commas, keeps every entry with a non-empty name and level (trimmed), and
falls back to the default mapping contents -> read when nothing was kept
(the empty input included). -/
def parsePermissions (permissionInput : String) : Permissions :=
  let permissions : Permissions :=
    if permissionInput != "" then
      (jsSplit permissionInput ',').foldl
        (fun m p =>
          match parsePermissionEntry p with
          | some (name, level) => objInsert m name level
          | none => m) []
    else []
  if permissions.length > 0 then permissions else [("contents", "read")]

/-- The `^https?:\/\/` regular expression test of `validateProxy`. -/
def proxyPatternTest (s : String) : Bool :=
  leadMatch "http://".toList s.toList || leadMatch "https://".toList s.toList

/-- `validateProxy(proxy)` of `main.ts`: a non-empty proxy not starting with
http:// or https:// raises; anything else passes through. -/
def validateProxy (proxy : String) : Except String String :=
  if proxy != "" && !(proxyPatternTest proxy) then
    Except.error "Invalid proxy URL format. It must start with http:// or https://"
  else
    Except.ok proxy

/-- The regular expression test `^[0-9]+$` on the application id. -/
def isNumericString (s : String) : Bool :=
  s != "" && s.toList.all (fun c => c.isDigit)

/-- The inputs `run` of `main.ts` reads before connecting. -/
structure InitInputs where
  applicationPrivateKey : String
  applicationId : String
  githubApiBaseUrl : String
  httpsProxy : String
deriving DecidableEq, Repr

/-- `GitHubApplication.connect` after signing: issues one `GET /app` request;
200 stores and returns the metadata, any other outcome is rewrapped (a non-200
delivered response is first thrown as a load failure, whose rewrapping sees no
`err.status`). The second component counts requests issued. -/
def connectResult (appId : String) (resp : HttpResult String) :
    Except String String × Nat :=
  match resp with
  | HttpResult.ok status data =>
      if status == 200 then (Except.ok data, 1)
      else
        (Except.error
          ("Failure connecting as the application; status code: undefined\nFailed to load application with id:"
            ++ appId ++ "; " ++ data), 1)
  | HttpResult.httpError status msg =>
      (Except.error
        ("Failure connecting as the application; status code: " ++ toString status ++ "\n" ++ msg), 1)

/-- The initialization of `run` in `main.ts`, up to and including the connect
step of `createApplication`: required inputs are read (a missing one raises),
the application id format is checked, the proxy is validated while the
`createApplication` argument is built, and only then does `connect` issue its
request. The second component counts the network requests issued. -/
def runConnectPhase (inputs : InitInputs) (connectResp : HttpResult String) :
    Except String String × Nat :=
  if inputs.applicationPrivateKey == "" then
    (Except.error "Input required and not supplied: application_private_key", 0)
  else if inputs.applicationId == "" then
    (Except.error "Input required and not supplied: application_id", 0)
  else if !(isNumericString inputs.applicationId) then
    (Except.error "Invalid application ID format. It must be a numeric string.", 0)
  else
    match validateProxy inputs.httpsProxy with
    | Except.error e => (Except.error e, 0)
    | Except.ok _ => connectResult inputs.applicationId connectResp

/-- What the repository branch of `run` produced: every message handed to
`core.setFailed`, in order, and the token set as the run's output, if any. -/
structure RunOutcome where
  failureMessages : List String
  tokenOutput : Option String
deriving DecidableEq, Repr

/-- The repository branch of `run` in `main.ts` (no organization input),
after a successful connect: resolve the installation of `GITHUB_REPOSITORY`;
a raised lookup error is caught and fails the run. On success, a truthy
installation id leads to the token request (whose token becomes the output);
a falsy id runs the `fail(...)` fallback of the `||` and then the
else-branch failure. -/
def runRepositoryFlow (repository : String) (instResp : HttpResult Installation)
    (permissionsInput : String) (tokenResp : HttpResult String) : RunOutcome :=
  let ow := splitRepository repository
  match getRepositoryInstallation ow.1 ow.2 instResp with
  | Except.error msg => { failureMessages := [msg], tokenOutput := none }
  | Except.ok installation =>
      if installation.id != 0 then
        match getInstallationAccessToken installation.id
            (some (parsePermissions permissionsInput)) tokenResp with
        | (Except.ok token, _) => { failureMessages := [], tokenOutput := some token }
        | (Except.error msg, _) => { failureMessages := [msg], tokenOutput := none }
      else
        { failureMessages :=
            ["GitHub Application is not installed on repository: " ++ repository,
             "No installation of the specified GitHub application was retrieved."]
        , tokenOutput := none }

/-- `revokeAccessToken(token)` of `github-application.ts`: issues the revoke
request through a client built by `getOctokit(token)` — note the signature
takes only the token, so `getOctokit` receives no base URL override. A 204
response returns true; any other status is thrown as unexpected and, like a
raised client error, rewrapped as a revocation failure. -/
def revokeAccessToken (resp : HttpResult String) : Except String Bool :=
  match resp with
  | HttpResult.ok status data =>
      if status == 204 then Except.ok true
      else
        Except.error
          ("Failed to revoke application token; Unexpected status code "
            ++ toString status ++ "; " ++ data)
  | HttpResult.httpError _ msg =>
      Except.error ("Failed to revoke application token; " ++ msg)

/-- The client `revokeAccessToken(token)` builds: `getOctokit(token)` with the
`baseApiUrl` parameter unsupplied. -/
def revokeAccessTokenClient (token : String) (envGithubApiUrl : Option String) : OctokitClient :=
  getOctokit token none envGithubApiUrl

/-- The base URL the post phase's revoke request targets. `post.ts` passes the
`github_api_base_url` input as a second argument to `revokeAccessToken`, but
that function declares only the token parameter, so the argument is dropped
and the base URL resolves from the environment alone. -/
def postRevokeRequestBaseUrl (token : String) (configuredBaseUrl : String)
    (envGithubApiUrl : Option String) : String :=
  (revokeAccessTokenClient token envGithubApiUrl).baseUrl

/-- What the post phase did: how many revoke requests it issued, and whether
it ended in `core.setFailed`. -/
structure PostOutcome where
  networkCalls : Nat
  failed : Bool
deriving DecidableEq, Repr

/-- `revokeToken` of `post.ts`: returns silently when no token was persisted
in the action state or when the `revoke_token` input is disabled; otherwise
calls `revokeAccessToken` once, succeeding when it returned true and failing
the phase when it returned false or raised. -/
def revokeTokenPhase (stateToken : String) (revokeFlag : Bool)
    (resp : HttpResult String) : PostOutcome :=
  if stateToken == "" then { networkCalls := 0, failed := false }
  else if !revokeFlag then { networkCalls := 0, failed := false }
  else
    match revokeAccessToken resp with
    | Except.ok revoked =>
        if revoked then { networkCalls := 1, failed := false }
        else { networkCalls := 1, failed := true }
    | Except.error _ => { networkCalls := 1, failed := true }

/-! ## General lemmas about the string helpers -/

theorem leadMatch_self_append (l t : List Char) : leadMatch l (l ++ t) = true := by
  induction l with
  | nil => rfl
  | cons a as ih => simp [leadMatch, ih]

theorem leadMatch_append (sub l t : List Char) (h : leadMatch sub l = true) :
    leadMatch sub (l ++ t) = true := by
  induction sub generalizing l with
  | nil => rfl
  | cons a as ih =>
    cases l with
    | nil => exact absurd h (by simp [leadMatch])
    | cons b bs =>
      simp only [leadMatch, Bool.and_eq_true, beq_iff_eq] at h
      simp only [List.cons_append, leadMatch, Bool.and_eq_true, beq_iff_eq]
      exact ⟨h.1, ih bs h.2⟩

theorem hasPart_of_leadMatch (sub l : List Char) (h : leadMatch sub l = true) :
    hasPart sub l = true := by
  cases l with
  | nil =>
    cases sub with
    | nil => rfl
    | cons a as => exact absurd h (by simp [leadMatch])
  | cons c rest => simp [hasPart, h]

theorem hasPart_lead_append (sub pre t : List Char) (h : leadMatch sub pre = true) :
    hasPart sub (pre ++ t) = true :=
  hasPart_of_leadMatch sub (pre ++ t) (leadMatch_append sub pre t h)

/-- A fold over entries that all parse to nothing leaves the accumulator
unchanged. -/
theorem foldl_permissions_none (l : List String) (acc : Permissions)
    (h : ∀ p ∈ l, parsePermissionEntry p = none) :
    l.foldl (fun m p => match parsePermissionEntry p with
      | some (name, level) => objInsert m name level
      | none => m) acc = acc := by
  induction l generalizing acc with
  | nil => rfl
  | cons x xs ih =>
    have hx := h x (List.mem_cons_self x xs)
    simp only [List.foldl_cons, hx]
    exact ih acc (fun p hp => h p (List.mem_cons_of_mem x hp))

/-- With a truthy installation id, `getInstallationAccessToken` issues exactly
one request, whose payload `buildAccessTokenPayload` builds from the supplied
permissions. -/
theorem tokenRequest_issued (installationId : Nat) (permissions : Option Permissions)
    (resp : HttpResult String) (hid : installationId ≠ 0) :
    (getInstallationAccessToken installationId permissions resp).2
      = some (buildAccessTokenPayload permissions) := by
  have h : (installationId == 0) = false := by simpa using hid
  unfold getInstallationAccessToken
  rw [h]
  cases resp with
  | ok status data =>
    by_cases hs : status == 201
    · simp [hs]
    · simp [hs]
  | httpError status m => simp

/-! ## Claim theorems -/

/-- C1 counterexample: with an unsupplied (or empty) permission map, the
request body of the issued access-token request still carries the
permissions field, holding an empty mapping — the field is present-but-empty
rather than omitted. -/
theorem emptyPermissions_field_present :
    (getInstallationAccessToken 7 none (HttpResult.ok 201 "token")).2
      = some { permissions := some [] } ∧
    (getInstallationAccessToken 7 (some []) (HttpResult.ok 201 "token")).2
      = some { permissions := some [] } ∧
    some ([] : Permissions) ≠ (none : Option Permissions) := by
  decide

/-- C1 (amended): for every call to getInstallationAccessToken with a truthy
installation id, the request body carries the permissions field: it holds
exactly the supplied map when that map is non-empty, and the empty mapping
(present-but-empty, not omitted) when the map is empty or unsupplied. -/
theorem accessTokenBody_spec (installationId : Nat) (perms : Permissions)
    (resp : HttpResult String) (hid : installationId ≠ 0) (hp : perms ≠ []) :
    (getInstallationAccessToken installationId (some perms) resp).2
      = some { permissions := some perms } ∧
    (getInstallationAccessToken installationId none resp).2
      = some { permissions := some [] } ∧
    (getInstallationAccessToken installationId (some []) resp).2
      = some { permissions := some [] } := by
  have h1 := tokenRequest_issued installationId (some perms) resp hid
  have h2 := tokenRequest_issued installationId none resp hid
  have h3 := tokenRequest_issued installationId (some []) resp hid
  have hb : buildAccessTokenPayload (some perms) = { permissions := some perms } := by
    have hl : perms.length > 0 := List.length_pos.mpr hp
    simp [buildAccessTokenPayload, hl]
  rw [h1, h2, h3, hb]
  exact ⟨rfl, rfl, rfl⟩

/-- C1 witness: the amended statement at a concrete non-empty map. -/
theorem accessTokenBody_spec_witness :
    (getInstallationAccessToken 7 (some [("contents", "write")]) (HttpResult.ok 201 "tok")).2
      = some { permissions := some [("contents", "write")] } ∧
    (getInstallationAccessToken 7 none (HttpResult.ok 201 "tok")).2
      = some { permissions := some [] } ∧
    (getInstallationAccessToken 7 (some []) (HttpResult.ok 201 "tok")).2
      = some { permissions := some [] } :=
  accessTokenBody_spec 7 [("contents", "write")] (HttpResult.ok 201 "tok")
    (by decide) (by decide)

/-- C2: on a GitHubApplication on which connect() never ran, the _client
field holds undefined, and the client accessor returns that undefined value
instead of raising — its guard fires only on a field strictly equal to
null, which no execution path produces. -/
theorem clientAccessor_before_connect :
    freshClientField = JSField.undef ∧
    clientAccessor freshClientField = Except.ok JSField.undef ∧
    clientAccessor JSField.nullv
      = Except.error
        "Application has not been initialized correctly, call connect() to connect to GitHub first." :=
  ⟨rfl, rfl, rfl⟩

/-- C3 counterexample: when the repository-installation lookup for
acme/widgets returns 404, the run fails, no token output is produced, and no
failure message contains the text the claim requires. -/
theorem run_404_message_counterexample :
    (runRepositoryFlow "acme/widgets" (HttpResult.httpError 404 "Not Found") ""
        (HttpResult.ok 201 "tok")).tokenOutput = none ∧
    (runRepositoryFlow "acme/widgets" (HttpResult.httpError 404 "Not Found") ""
        (HttpResult.ok 201 "tok")).failureMessages ≠ [] ∧
    ((runRepositoryFlow "acme/widgets" (HttpResult.httpError 404 "Not Found") ""
        (HttpResult.ok 201 "tok")).failureMessages.all
      (fun m => !(strContains m "is not installed on repository: acme/widgets"))) = true := by
  decide

/-- C3 (amended): when the repository-installation lookup for acme/widgets
raises with status 404, the run fails with the single message
"Failed to resolve installation of application on repository acme/widgets; "
followed by the upstream message, and no token output is produced. -/
theorem run_404_resolve_failure (msg permissionsInput : String)
    (tokenResp : HttpResult String) :
    (runRepositoryFlow "acme/widgets" (HttpResult.httpError 404 msg) permissionsInput
        tokenResp).tokenOutput = none ∧
    (runRepositoryFlow "acme/widgets" (HttpResult.httpError 404 msg) permissionsInput
        tokenResp).failureMessages
      = ["Failed to resolve installation of application on repository acme/widgets; " ++ msg] ∧
    strContains
      ("Failed to resolve installation of application on repository acme/widgets; " ++ msg)
      "Failed to resolve installation of application on repository acme/widgets" = true := by
  refine ⟨rfl, rfl, ?_⟩
  show hasPart _ _ = true
  simp only [String.toList, String.data_append]
  exact hasPart_lead_append _ _ _ (by decide)

/-- C4: the post phase issues no revoke request and does not fail when no
token was persisted or when revocation is disabled; otherwise it issues
exactly one request, and revokeAccessToken returns true on a 204 and raises
on every other outcome. -/
theorem revokeTokenPhase_spec (stateToken : String) (revokeFlag : Bool)
    (resp : HttpResult String) :
    (stateToken = "" →
      revokeTokenPhase stateToken revokeFlag resp = { networkCalls := 0, failed := false }) ∧
    (revokeFlag = false →
      revokeTokenPhase stateToken revokeFlag resp = { networkCalls := 0, failed := false }) ∧
    (stateToken ≠ "" → revokeFlag = true →
      (revokeTokenPhase stateToken revokeFlag resp).networkCalls = 1) ∧
    (∀ data, revokeAccessToken (HttpResult.ok 204 data) = Except.ok true) ∧
    (∀ status data, status ≠ 204 →
      ∃ e, revokeAccessToken (HttpResult.ok status data) = Except.error e) ∧
    (∀ status m, ∃ e, revokeAccessToken (HttpResult.httpError status m) = Except.error e) := by
  refine ⟨?_, ?_, ?_, ?_, ?_, ?_⟩
  · intro h; subst h; rfl
  · intro h; subst h
    by_cases hs : stateToken = "" <;> simp [revokeTokenPhase, hs]
  · intro h1 h2; subst h2
    have hs : (stateToken == "") = false := by simpa using h1
    simp only [revokeTokenPhase, hs]
    cases hr : revokeAccessToken resp with
    | ok b => cases b <;> simp [hr]
    | error e => simp [hr]
  · intro data; rfl
  · intro status data h
    have hs : (status == 204) = false := by simpa using h
    exact ⟨"Failed to revoke application token; Unexpected status code "
        ++ toString status ++ "; " ++ data, by simp [revokeAccessToken, hs]⟩
  · intro status m; exact ⟨_, rfl⟩

/-- C4 witness: the statement at concrete inputs. -/
theorem revokeTokenPhase_spec_witness :
    revokeTokenPhase "" true (HttpResult.ok 204 "")
      = { networkCalls := 0, failed := false } ∧
    revokeTokenPhase "tok" false (HttpResult.ok 204 "")
      = { networkCalls := 0, failed := false } ∧
    (revokeTokenPhase "tok" true (HttpResult.ok 204 "")).networkCalls = 1 ∧
    revokeAccessToken (HttpResult.ok 204 "") = Except.ok true ∧
    (∃ e, revokeAccessToken (HttpResult.ok 500 "err") = Except.error e) := by
  refine ⟨?_, ?_, ?_, ?_, ?_⟩
  · exact (revokeTokenPhase_spec "" true (HttpResult.ok 204 "")).1 rfl
  · exact (revokeTokenPhase_spec "tok" false (HttpResult.ok 204 "")).2.1 rfl
  · exact (revokeTokenPhase_spec "tok" true (HttpResult.ok 204 "")).2.2.1 (by decide) rfl
  · exact (revokeTokenPhase_spec "tok" true (HttpResult.ok 204 "")).2.2.2.1 ""
  · exact (revokeTokenPhase_spec "tok" true (HttpResult.ok 204 "")).2.2.2.2.1 500 "err" (by decide)

/-- C5: the signed assertion of connect has issued-at equal to the current
Unix time in seconds, expiry equal to issued-at plus validSeconds, issuer
equal to the application id, and an unsupplied validSeconds defaults to
60. -/
theorem connectClaims_spec (appId : String) (nowMs : Nat) (validSeconds : Option Nat) :
    (connectClaims appId nowMs validSeconds).iat = nowMs / 1000 ∧
    (connectClaims appId nowMs validSeconds).exp
      = (connectClaims appId nowMs validSeconds).iat + validSeconds.getD 60 ∧
    (connectClaims appId nowMs validSeconds).iss = appId ∧
    connectClaims appId nowMs none = connectClaims appId nowMs (some 60) :=
  ⟨rfl, rfl, rfl, rfl⟩

/-- C6: parsePermissions maps "contents:write,issues:read" to the expected
mapping, and maps the empty string — and every string none of whose
comma-separated entries is a valid name:level pair — to the default mapping
contents to read. -/
theorem parsePermissions_spec :
    parsePermissions "contents:write,issues:read"
      = [("contents", "write"), ("issues", "read")] ∧
    parsePermissions "" = [("contents", "read")] ∧
    ∀ s : String, (∀ p ∈ jsSplit s ',', parsePermissionEntry p = none) →
      parsePermissions s = [("contents", "read")] := by
  refine ⟨by decide, by decide, ?_⟩
  intro s h
  by_cases hs : s = ""
  · subst hs; decide
  · have hbne : (s != "") = true := bne_iff_ne.mpr hs
    simp only [parsePermissions, hbne, if_true]
    rw [foldl_permissions_none (jsSplit s ',') [] h]
    rfl

/-- C6 witness: a concrete string with no valid pair yields the default. -/
theorem parsePermissions_spec_witness :
    parsePermissions "foo,bar:,:read" = [("contents", "read")] :=
  parsePermissions_spec.2.2 "foo,bar:,:read" (by decide)

/-- C7: every non-empty proxy string that does not start with http:// or
https:// makes validateProxy raise the invalid-proxy error, and the run
errors out with zero network requests issued. -/
theorem validateProxy_rejects (proxy : String) (h1 : proxy ≠ "")
    (h2 : proxyPatternTest proxy = false) :
    validateProxy proxy
      = Except.error "Invalid proxy URL format. It must start with http:// or https://" ∧
    ∀ (inputs : InitInputs) (connectResp : HttpResult String), inputs.httpsProxy = proxy →
      ∃ e, runConnectPhase inputs connectResp = (Except.error e, 0) := by
  have hv : validateProxy proxy
      = Except.error "Invalid proxy URL format. It must start with http:// or https://" := by
    simp [validateProxy, h1, h2]
  refine ⟨hv, ?_⟩
  intro inputs connectResp hp
  unfold runConnectPhase
  split
  · exact ⟨_, rfl⟩
  · split
    · exact ⟨_, rfl⟩
    · split
      · exact ⟨_, rfl⟩
      · rw [hp, hv]
        exact ⟨_, rfl⟩

/-- C7 witness: the statement at a concrete malformed proxy. -/
theorem validateProxy_rejects_witness :
    validateProxy "ftp://proxy.example"
      = Except.error "Invalid proxy URL format. It must start with http:// or https://" ∧
    ∃ e, runConnectPhase
        { applicationPrivateKey := "key", applicationId := "42"
        , githubApiBaseUrl := "", httpsProxy := "ftp://proxy.example" }
        (HttpResult.ok 200 "meta") = (Except.error e, 0) := by
  have h := validateProxy_rejects "ftp://proxy.example" (by decide) (by decide)
  exact ⟨h.1, h.2 _ (HttpResult.ok 200 "meta") rfl⟩

/-- C8: getInstallationAccessToken with a falsy (zero) installation id raises
the invalid-argument error and issues no request; with a truthy id it issues
the request. -/
theorem installation_id_guard (permissions : Option Permissions) (resp : HttpResult String) :
    getInstallationAccessToken 0 permissions resp
      = (Except.error "GitHub Application installation id must be provided", none) ∧
    ∀ installationId : Nat, installationId ≠ 0 →
      (getInstallationAccessToken installationId permissions resp).2
        = some (buildAccessTokenPayload permissions) :=
  ⟨rfl, fun instId hid => tokenRequest_issued instId permissions resp hid⟩

/-- C8 witness: the statement at concrete ids 0 and 36. -/
theorem installation_id_guard_witness :
    getInstallationAccessToken 0 (some [("contents", "read")]) (HttpResult.ok 201 "tok")
      = (Except.error "GitHub Application installation id must be provided", none) ∧
    (getInstallationAccessToken 36 (some [("contents", "read")]) (HttpResult.ok 201 "tok")).2
      = some (buildAccessTokenPayload (some [("contents", "read")])) :=
  ⟨(installation_id_guard (some [("contents", "read")]) (HttpResult.ok 201 "tok")).1,
   (installation_id_guard (some [("contents", "read")]) (HttpResult.ok 201 "tok")).2 36
     (by decide)⟩

/-- C9: the revoke request of the post phase resolves its base URL from the
environment GITHUB_API_URL (or the default api.github.com), independent of
the configured github_api_base_url input, because revokeAccessToken declares
only the token parameter and builds its client without a base URL
override. -/
theorem revoke_base_url_ignores_config (token configuredBaseUrl : String)
    (envGithubApiUrl : Option String) :
    postRevokeRequestBaseUrl token configuredBaseUrl envGithubApiUrl
      = jsOr envGithubApiUrl "https://api.github.com" ∧
    (∀ otherConfiguredBaseUrl,
      postRevokeRequestBaseUrl token configuredBaseUrl envGithubApiUrl
        = postRevokeRequestBaseUrl token otherConfiguredBaseUrl envGithubApiUrl) ∧
    (revokeAccessTokenClient token envGithubApiUrl).baseUrl
      = getApiBaseUrl none envGithubApiUrl :=
  ⟨rfl, fun _ => rfl, rfl⟩

/-- C10: createApplication passes the config timeout to connect as
validSeconds, so a supplied timeout widens the signed-assertion expiry
window, while the HTTP request timeout of every client getOctokit builds is
the constant 5000 ms. -/
theorem createApplication_timeout_spec (config : ApplicationConfig) (nowMs : Nat) :
    (createApplicationClaims config nowMs).exp
      = (createApplicationClaims config nowMs).iat + config.timeout.getD 60 ∧
    (∀ t, config.timeout = some t →
      (createApplicationClaims config nowMs).exp
        = (createApplicationClaims config nowMs).iat + t) ∧
    ∀ (token : String) (baseApiUrl envGithubApiUrl : Option String),
      (getOctokit token baseApiUrl envGithubApiUrl).requestTimeoutMs = 5000 := by
  refine ⟨rfl, ?_, fun _ _ _ => rfl⟩
  intro t ht
  simp [createApplicationClaims, connectClaims, ht]

/-- C10 witness: the statement at a concrete config with timeout 300. -/
theorem createApplication_timeout_spec_witness :
    (createApplicationClaims
        { applicationId := "42", privateKey := "key", baseApiUrl := none, timeout := some 300 }
        1700000000123).exp
      = (createApplicationClaims
          { applicationId := "42", privateKey := "key", baseApiUrl := none, timeout := some 300 }
          1700000000123).iat + 300 :=
  (createApplication_timeout_spec
      { applicationId := "42", privateKey := "key", baseApiUrl := none, timeout := some 300 }
      1700000000123).2.1 300 rfl
